import Mathlib

/-!
Verification development for the GovTrackPython curator-monitoring system.

The definitions below are a shallow embedding of the Python source:
timestamps are integers (seconds), database tables are lists of records in
insertion order (an un-ordered SQLAlchemy `.first()` is modelled as the first
matching record in list order), and nullable columns are `Option` fields.

Embedded source functions (names kept from the source):
- `discord_bot.py`: `CuratorMonitoringBot.create_response_tracking`,
  `CuratorMonitoringBot.update_response_tracking`, the post-sleep body of
  `CuratorMonitoringBot.schedule_notification_check` (here `notification_check`).
- `utils.py`: `process_curator_response`.
- `rating_system.py`: `CuratorRatingSystem.calculate_response_time_bonus`,
  `CuratorRatingSystem.calculate_curator_score`, the band-resolution loop of
  `CuratorRatingSystem.get_curator_rating` (here `get_curator_rating_band`),
  `CuratorRatingSystem.get_top_curators` (Python stable sort modelled by a
  stable descending insertion sort).
-/

namespace GovTrack

/-- A curator row (`models.Curators`): database id, Discord id, active flag. -/
structure Curators where
  id : Nat
  discord_id : Nat
  is_active : Bool
  deriving Repr, DecidableEq

/-- A monitored server row (`models.DiscordServers`): database id, Discord
guild id (`server_id` column), active flag. -/
structure DiscordServers where
  id : Nat
  server_id : Nat
  is_active : Bool
  deriving Repr, DecidableEq

/-- An inbound Discord message as seen by the bot handlers: message id,
channel, guild, author, creation timestamp (seconds), text content, and the
referenced message id when the message is an explicit reply. -/
structure Message where
  id : Nat
  channel_id : Nat
  guild_id : Nat
  author_id : Nat
  created_at : Int
  content : String
  reference : Option Nat
  deriving Repr, DecidableEq

/-- A `models.ResponseTracking` row.  The response columns are nullable;
`is_resolved` is the only lifecycle flag present in the schema. -/
structure ResponseTracking where
  id : Nat
  server_id : Nat
  mention_message_id : Nat
  mention_timestamp : Int
  mention_content : String
  mention_author_id : Nat
  curator_id : Option Nat := none
  response_message_id : Option Nat := none
  response_timestamp : Option Int := none
  response_type : Option String := none
  response_time_seconds : Option Int := none
  is_resolved : Bool := false
  deriving Repr, DecidableEq

/-- An `models.Activities` row (fields used by the scoring engine). -/
structure Activities where
  curator_id : Nat
  type : String
  timestamp : Int
  deriving Repr, DecidableEq

/-- Embeds `models.GlobalRatingConfig`: per-activity point values and the good/poor
response-time thresholds, with the defaults written by `_load_rating_config`. -/
structure GlobalRatingConfig where
  activity_points_message : Int := 3
  activity_points_reaction : Int := 1
  activity_points_reply : Int := 2
  activity_points_task_verification : Int := 5
  response_time_good_seconds : Int := 60
  response_time_poor_seconds : Int := 300
  deriving Repr, DecidableEq

/-- A `models.RatingSettings` row: a rating band. -/
structure RatingSettings where
  rating_name : String
  rating_text : String
  min_score : Int
  color : String
  deriving Repr, DecidableEq

/-- The default band list created by `_load_rating_thresholds`, already in the
`min_score` descending order produced by its `order_by` query. -/
def default_rating_thresholds : List RatingSettings :=
  [ { rating_name := "excellent", rating_text := "Великолепно", min_score := 50, color := "#22c55e" },
    { rating_name := "good", rating_text := "Хорошо", min_score := 35, color := "#3b82f6" },
    { rating_name := "normal", rating_text := "Нормально", min_score := 20, color := "#f59e0b" },
    { rating_name := "poor", rating_text := "Плохо", min_score := 10, color := "#ef4444" },
    { rating_name := "terrible", rating_text := "Ужасно", min_score := 0, color := "#991b1b" } ]

/-- Point value of one activity row, as in the accumulation loop of
`calculate_curator_score` (unknown activity types contribute nothing). -/
def activityPoints (config : GlobalRatingConfig) (a : Activities) : Int :=
  if a.type == "message" then config.activity_points_message
  else if a.type == "reaction" then config.activity_points_reaction
  else if a.type == "reply" then config.activity_points_reply
  else if a.type == "task_verification" then config.activity_points_task_verification
  else 0

/-- The activity-window filter of `calculate_curator_score`: same curator and
`start_date <= timestamp <= end_date` with `start_date = now - days` days. -/
def inActivityWindow (cid : Nat) (days : Nat) (now : Int) (a : Activities) : Bool :=
  a.curator_id == cid
    && decide (now - (days : Int) * 86400 ≤ a.timestamp)
    && decide (a.timestamp ≤ now)

/-- The response-window filter of `calculate_response_time_bonus`: same
curator, `response_timestamp` non-null and inside the window. -/
def inResponseWindow (cid : Nat) (days : Nat) (now : Int) (r : ResponseTracking) : Bool :=
  r.curator_id == some cid
    && (match r.response_timestamp with
        | some ts => decide (now - (days : Int) * 86400 ≤ ts) && decide (ts ≤ now)
        | none => false)

/-- Per-response bonus of `calculate_response_time_bonus`:
`response_time = response_time_seconds or 0`, then `+2` when at most the good
threshold, `+0` when at most the poor threshold, `-1` otherwise. -/
def responseContribution (config : GlobalRatingConfig) (r : ResponseTracking) : Int :=
  let response_time := r.response_time_seconds.getD 0
  if response_time ≤ config.response_time_good_seconds then 2
  else if response_time ≤ config.response_time_poor_seconds then 0
  else -1

/-- Embeds `CuratorRatingSystem.calculate_response_time_bonus`: filter the tracking
table to the curator's in-window responses, return 0 when none, otherwise sum
the per-response contributions. -/
def calculate_response_time_bonus (config : GlobalRatingConfig)
    (db : List ResponseTracking) (cid : Nat) (days : Nat) (now : Int) : Int :=
  let responses := db.filter (inResponseWindow cid days now)
  if responses.isEmpty then 0
  else (responses.map (responseContribution config)).sum

/-- Result dictionary of `calculate_curator_score` (numeric fields). -/
structure ScoreResult where
  total_score : Int
  base_score : Int
  response_bonus : Int
  deriving Repr, DecidableEq

/-- Embeds `CuratorRatingSystem.calculate_curator_score`: base activity points plus
the response-time bonus, with the total floored at 0 and the unfloored parts
returned alongside. -/
def calculate_curator_score (config : GlobalRatingConfig)
    (activities : List Activities) (db : List ResponseTracking)
    (cid : Nat) (days : Nat) (now : Int) : ScoreResult :=
  let base_score := ((activities.filter (inActivityWindow cid days now)).map
    (activityPoints config)).sum
  let response_bonus := calculate_response_time_bonus config db cid days now
  { total_score := max 0 (base_score + response_bonus)
    base_score := base_score
    response_bonus := response_bonus }

/-- Band-resolution loop of `CuratorRatingSystem.get_curator_rating`: walk the
threshold list (kept in `min_score` descending order by its query) and take the
first band whose minimum is at most the score; fall back to the last list
element (`self.rating_thresholds[-1]`), which is absent for an empty list. -/
def get_curator_rating_band (thresholds : List RatingSettings) (score : Int) :
    Option RatingSettings :=
  match thresholds.find? (fun t => decide (t.min_score ≤ score)) with
  | some t => some t
  | none => thresholds.getLast?

/-- One entry of the list built by `get_top_curators` (the fields its sort and
result use: the curator and the snapshot's total score). -/
structure LeaderboardEntry where
  curator : Curators
  score : Int
  deriving Repr, DecidableEq

/-- Stable descending insertion: place `x` before the first element whose
score is at most `x`'s.  `List.foldr insertDesc []` computes exactly the
stable descending sort performed by Python's `list.sort(key=score,
reverse=True)`. -/
def insertDesc (x : LeaderboardEntry) : List LeaderboardEntry → List LeaderboardEntry
  | [] => [x]
  | y :: ys => if y.score ≤ x.score then x :: y :: ys else y :: insertDesc x ys

/-- Python's stable sort, descending by score. -/
def sortDesc (l : List LeaderboardEntry) : List LeaderboardEntry :=
  l.foldr insertDesc []

/-- The per-curator snapshot list built by `get_top_curators` before sorting:
one entry for every active curator, in query (storage) order. -/
def leaderboardEntries (config : GlobalRatingConfig) (curators : List Curators)
    (activities : List Activities) (db : List ResponseTracking)
    (days : Nat) (now : Int) : List LeaderboardEntry :=
  (curators.filter (fun c => c.is_active)).map (fun c =>
    { curator := c
      score := (calculate_curator_score config activities db c.id days now).total_score })

/-- Embeds `CuratorRatingSystem.get_top_curators`: build the snapshot list, stable
sort descending by score, return the first `limit` entries. -/
def get_top_curators (config : GlobalRatingConfig) (curators : List Curators)
    (activities : List Activities) (db : List ResponseTracking)
    (limit : Nat) (days : Nat) (now : Int) : List LeaderboardEntry :=
  (sortDesc (leaderboardEntries config curators activities db days now)).take limit

/-- Python's `content[:1000]` slice: the first `n` characters of a string. -/
def truncateChars (n : Nat) (s : String) : String := String.mk (s.toList.take n)

/-- Embeds `CuratorMonitoringBot.create_response_tracking`: if some record already
tracks this message id (a query over the whole table), return the table
unchanged; otherwise append a fresh unresolved record for the message.  The
fresh primary key is modelled as the current table length. -/
def create_response_tracking (db : List ResponseTracking) (msg : Message)
    (serverRowId : Nat) : List ResponseTracking :=
  if db.any (fun t => t.mention_message_id == msg.id) then db
  else db ++
    [ { id := db.length
        server_id := serverRowId
        mention_message_id := msg.id
        mention_timestamp := msg.created_at
        mention_content := truncateChars 1000 msg.content
        mention_author_id := msg.author_id
        is_resolved := false } ]

/-- The filter of the query in `update_response_tracking`: the record's
mention is at most two hours old (`mention_timestamp >= utcnow() - 2h`), the
record is unresolved, and the join to `DiscordServers` matches the guild of
the responding message.  Nothing else is checked: not the channel, not the
reply reference, not the author, and not the sign of the would-be latency. -/
def trackingMatches (servers : List DiscordServers) (guildId : Nat) (now : Int)
    (t : ResponseTracking) : Bool :=
  decide (now - 7200 ≤ t.mention_timestamp)
    && t.is_resolved == false
    && servers.any (fun s => s.id == t.server_id && s.server_id == guildId)

/-- Replace the first record satisfying `p` by its image under `f`; models a
mutation of the single row returned by an SQLAlchemy query's unordered
`first()` on a table in insertion order. -/
def updateFirst (p : α → Bool) (f : α → α) : List α → List α
  | [] => []
  | x :: xs => if p x then f x :: xs else x :: updateFirst p f xs

/-- The field assignments performed by `update_response_tracking` on the
matched record: record the curator, the responding message, its timestamp and
kind, the latency `response_ts - mention_ts`, and mark the record resolved. -/
def resolveWith (msg : Message) (curatorId : Nat) (rtype : String)
    (t : ResponseTracking) : ResponseTracking :=
  { t with
      curator_id := some curatorId
      response_message_id := some msg.id
      response_timestamp := some msg.created_at
      response_type := some rtype
      response_time_seconds := some (msg.created_at - t.mention_timestamp)
      is_resolved := true }

/-- Embeds `CuratorMonitoringBot.update_response_tracking`: take the first unresolved
in-window record of the responding message's guild (if any) and resolve it
with this curator and message. -/
def update_response_tracking (servers : List DiscordServers)
    (db : List ResponseTracking) (msg : Message) (cur : Curators)
    (rtype : String) (now : Int) : List ResponseTracking :=
  updateFirst (trackingMatches servers msg.guild_id now)
    (resolveWith msg cur.id rtype) db

/-- Embeds `utils.process_curator_response`: only when the message carries an
explicit reply reference, find the first record of this server whose mention
message id equals the referenced id and whose `response_timestamp` is still
null, and fill in the response columns (this function never sets
`is_resolved`). -/
def process_curator_response (db : List ResponseTracking) (msg : Message)
    (cur : Curators) (serverRowId : Nat) : List ResponseTracking :=
  match msg.reference with
  | none => db
  | some ref =>
      updateFirst
        (fun t => t.server_id == serverRowId
          && t.mention_message_id == ref
          && t.response_timestamp == none)
        (fun t =>
          { t with
              curator_id := some cur.id
              response_message_id := some msg.id
              response_timestamp := some msg.created_at
              response_type := some "reply"
              response_time_seconds := some (msg.created_at - t.mention_timestamp) })
        db

/-- The post-sleep body of `CuratorMonitoringBot.schedule_notification_check`:
look the record up by id; if it exists and is still unresolved, an escalation
notification is sent (second component `true`).  The tracking table itself is
never modified by this check. -/
def notification_check (db : List ResponseTracking) (trackingId : Nat) :
    List ResponseTracking × Bool :=
  match db.find? (fun t => t.id == trackingId) with
  | some t => (db, !t.is_resolved)
  | none => (db, false)

/-- Whether some record already tracks mention message id `mid`. -/
def isTracked (db : List ResponseTracking) (mid : Nat) : Bool :=
  db.any (fun t => t.mention_message_id == mid)

/-- Number of records tracking mention message id `mid`. -/
def countTracked (db : List ResponseTracking) (mid : Nat) : Nat :=
  (db.filter (fun t => t.mention_message_id == mid)).length

/-- Fold a sequence of help-request events (message plus server row id)
through `create_response_tracking`. -/
def processHelpEvents (events : List (Message × Nat))
    (db : List ResponseTracking) : List ResponseTracking :=
  events.foldl (fun acc e => create_response_tracking acc e.1 e.2) db

/-! ### Concrete fixtures used by counterexamples and witnesses -/

/-- The default rating configuration (`_load_rating_config` defaults). -/
def defaultRatingConfig : GlobalRatingConfig := {}

/-- A resolved response at exactly the poor threshold (300 s). -/
def slowResponseRecord : ResponseTracking :=
  { id := 0, server_id := 1, mention_message_id := 1, mention_timestamp := 0,
    mention_content := "нужна помощь", mention_author_id := 5,
    curator_id := some 3, response_message_id := some 2,
    response_timestamp := some 300, response_type := some "message",
    response_time_seconds := some 300, is_resolved := true }

/-- A resolved response at 45 s. -/
def fastResponseRecord : ResponseTracking :=
  { id := 0, server_id := 1, mention_message_id := 1, mention_timestamp := 0,
    mention_content := "нужна помощь", mention_author_id := 5,
    curator_id := some 3, response_message_id := some 2,
    response_timestamp := some 45, response_type := some "message",
    response_time_seconds := some 45, is_resolved := true }

/-- A record whose response columns were set without a latency value. -/
def nullLatencyRecord : ResponseTracking :=
  { id := 0, server_id := 1, mention_message_id := 1, mention_timestamp := 0,
    mention_content := "нужна помощь", mention_author_id := 5,
    curator_id := some 3, response_message_id := some 2,
    response_timestamp := some 100, response_type := some "message",
    response_time_seconds := none, is_resolved := true }

/-! ### Helper lemmas -/

/-- The early `return 0` on an empty response list in
`calculate_response_time_bonus` is absorbed by the empty sum: the bonus is
always the sum of per-response contributions over the filtered table. -/
theorem calculate_response_time_bonus_eq_sum (config : GlobalRatingConfig)
    (db : List ResponseTracking) (cid days : Nat) (now : Int) :
    calculate_response_time_bonus config db cid days now
      = ((db.filter (inResponseWindow cid days now)).map
          (responseContribution config)).sum := by
  unfold calculate_response_time_bonus
  cases hl : db.filter (inResponseWindow cid days now) with
  | nil => simp
  | cons a l => simp

/-! ### Claims about the scoring engine -/

/-- Claim C6 counterexample: with the default thresholds, a resolved response
at exactly the poor threshold (latency 300 s = `response_time_poor_seconds`)
receives a `+0` adjustment, not the `-1` penalty the claim asserts. -/
theorem C6_counterexample :
    responseContribution defaultRatingConfig slowResponseRecord = 0
      ∧ responseContribution defaultRatingConfig slowResponseRecord ≠ -1 := by
  decide

/-- Claim C6 (amended): for any configuration whose good threshold does not
exceed its poor threshold (as in the 60/300 defaults), the response-time
adjustment is `+2` when the latency is at most the good threshold, `+0` when
it is above the good threshold but at most the poor threshold (so a response
at exactly the poor threshold gets `+0`), and `-1` only when it is strictly
above the poor threshold. -/
theorem C6_response_bonus_bands (config : GlobalRatingConfig)
    (r : ResponseTracking) (rt : Int)
    (hgp : config.response_time_good_seconds ≤ config.response_time_poor_seconds)
    (hrt : r.response_time_seconds = some rt) :
    (rt ≤ config.response_time_good_seconds → responseContribution config r = 2)
    ∧ (config.response_time_good_seconds < rt →
        rt ≤ config.response_time_poor_seconds → responseContribution config r = 0)
    ∧ (config.response_time_poor_seconds < rt → responseContribution config r = -1) := by
  refine ⟨fun h1 => ?_, fun h1 h2 => ?_, fun h1 => ?_⟩ <;>
    simp only [responseContribution, hrt, Option.getD_some] <;>
    split_ifs <;> omega

/-- Claim C6 witness: the amended trichotomy applied to a concrete 45-second
response under the default configuration. -/
theorem C6_response_bonus_bands_witness :
    responseContribution defaultRatingConfig fastResponseRecord = 2 :=
  (C6_response_bonus_bands defaultRatingConfig fastResponseRecord 45
    (by decide) rfl).1 (by decide)

/-- Claim C7: the total score equals `max 0 (base + bonus)` — hence is never
negative — while the unfloored base score and response bonus are returned
alongside it unchanged. -/
theorem C7_total_score_floor (config : GlobalRatingConfig)
    (activities : List Activities) (db : List ResponseTracking)
    (cid days : Nat) (now : Int) :
    (calculate_curator_score config activities db cid days now).total_score
      = max 0 ((calculate_curator_score config activities db cid days now).base_score
          + (calculate_curator_score config activities db cid days now).response_bonus)
    ∧ 0 ≤ (calculate_curator_score config activities db cid days now).total_score
    ∧ (calculate_curator_score config activities db cid days now).base_score
      = ((activities.filter (inActivityWindow cid days now)).map
          (activityPoints config)).sum
    ∧ (calculate_curator_score config activities db cid days now).response_bonus
      = calculate_response_time_bonus config db cid days now :=
  ⟨rfl, le_max_left 0 _, rfl, rfl⟩

/-- Claim C10: a tracking record whose `response_timestamp` is set but whose
`response_time_seconds` is null is not skipped by the bonus computation: via
`response_time_seconds or 0` it is treated as latency 0 and contributes the
`+2` fast-response bonus. -/
theorem C10_null_latency_gets_fast_bonus (config : GlobalRatingConfig)
    (pre post : List ResponseTracking) (r : ResponseTracking)
    (cid days : Nat) (now : Int)
    (hgood : 0 ≤ config.response_time_good_seconds)
    (hnull : r.response_time_seconds = none)
    (hin : inResponseWindow cid days now r = true) :
    calculate_response_time_bonus config (pre ++ r :: post) cid days now
      = calculate_response_time_bonus config (pre ++ post) cid days now + 2 := by
  have hc : responseContribution config r = 2 := by
    simp only [responseContribution, hnull, Option.getD_none]
    rw [if_pos hgood]
  rw [calculate_response_time_bonus_eq_sum, calculate_response_time_bonus_eq_sum,
    List.filter_append, List.filter_append, List.filter_cons_of_pos hin,
    List.map_append, List.map_append, List.sum_append, List.sum_append,
    List.map_cons, List.sum_cons, hc]
  ring

/-- Claim C10 witness: a single null-latency record with a set response
timestamp yields bonus 2 over the empty table, under the default config. -/
theorem C10_null_latency_gets_fast_bonus_witness :
    calculate_response_time_bonus defaultRatingConfig [nullLatencyRecord] 3 30 1000
      = calculate_response_time_bonus defaultRatingConfig [] 3 30 1000 + 2 :=
  C10_null_latency_gets_fast_bonus defaultRatingConfig [] [] nullLatencyRecord
    3 30 1000 (by decide) rfl (by decide)

/-- When the head band's minimum is satisfied, the loop stops at the head. -/
theorem get_curator_rating_band_cons_of_pos (t : RatingSettings)
    (ts : List RatingSettings) (s : Int) (h : t.min_score ≤ s) :
    get_curator_rating_band (t :: ts) s = some t := by
  unfold get_curator_rating_band
  rw [List.find?_cons_of_pos _ (by simpa using h)]

/-- When the only band's minimum is not satisfied, the `[-1]` fallback still
returns it. -/
theorem get_curator_rating_band_single_of_neg (t : RatingSettings) (s : Int)
    (h : ¬ t.min_score ≤ s) : get_curator_rating_band [t] s = some t := by
  unfold get_curator_rating_band
  rw [List.find?_cons_of_neg _ (by simpa using h)]
  rfl

/-- A failing head band is skipped when at least one band follows it (both
the loop and the `[-1]` fallback ignore the head). -/
theorem get_curator_rating_band_cons_of_neg (t u : RatingSettings)
    (us : List RatingSettings) (s : Int) (h : ¬ t.min_score ≤ s) :
    get_curator_rating_band (t :: u :: us) s
      = get_curator_rating_band (u :: us) s := by
  unfold get_curator_rating_band
  rw [List.find?_cons_of_neg _ (by simpa using h), List.getLast?_cons_cons]

/-- A band returned by the resolution loop is one of the configured bands. -/
theorem mem_of_band_eq_some {l : List RatingSettings} {s : Int}
    {b : RatingSettings} (h : get_curator_rating_band l s = some b) : b ∈ l := by
  unfold get_curator_rating_band at h
  cases hf : l.find? (fun t => decide (t.min_score ≤ s)) with
  | some t =>
    rw [hf] at h
    injection h with hh
    exact hh ▸ List.mem_of_find?_eq_some hf
  | none =>
    rw [hf] at h
    obtain ⟨hne, heq⟩ := List.mem_getLast?_eq_getLast (Option.mem_def.mpr h)
    exact heq ▸ List.getLast_mem hne

/-- Claim C8: band resolution is monotone in the score.  For a threshold list
kept in `min_score` descending order (as `_load_rating_thresholds` orders it),
the band resolved for the larger score has a minimum at least that of the band
resolved for the smaller score. -/
theorem C8_band_monotone (thresholds : List RatingSettings) (s1 s2 : Int)
    (b1 b2 : RatingSettings)
    (hsorted : thresholds.Pairwise (fun a b => b.min_score ≤ a.min_score))
    (h12 : s1 ≤ s2)
    (h1 : get_curator_rating_band thresholds s1 = some b1)
    (h2 : get_curator_rating_band thresholds s2 = some b2) :
    b1.min_score ≤ b2.min_score := by
  induction thresholds with
  | nil => simp [get_curator_rating_band] at h1
  | cons t ts ih =>
    rw [List.pairwise_cons] at hsorted
    obtain ⟨hhead, htail⟩ := hsorted
    by_cases hc1 : t.min_score ≤ s1
    · rw [get_curator_rating_band_cons_of_pos t ts s1 hc1] at h1
      rw [get_curator_rating_band_cons_of_pos t ts s2 (le_trans hc1 h12)] at h2
      injection h1 with e1
      injection h2 with e2
      rw [← e1, ← e2]
    · by_cases hc2 : t.min_score ≤ s2
      · rw [get_curator_rating_band_cons_of_pos t ts s2 hc2] at h2
        injection h2 with e2
        rcases List.mem_cons.mp (mem_of_band_eq_some h1) with hb1 | hb1
        · rw [hb1, ← e2]
        · rw [← e2]
          exact hhead b1 hb1
      · cases ts with
        | nil =>
          rw [get_curator_rating_band_single_of_neg t s1 hc1] at h1
          rw [get_curator_rating_band_single_of_neg t s2 hc2] at h2
          injection h1 with e1
          injection h2 with e2
          rw [← e1, ← e2]
        | cons u us =>
          rw [get_curator_rating_band_cons_of_neg t u us s1 hc1] at h1
          rw [get_curator_rating_band_cons_of_neg t u us s2 hc2] at h2
          exact ih htail h1 h2

/-- The default "poor" band. -/
def poorBand : RatingSettings :=
  { rating_name := "poor", rating_text := "Плохо", min_score := 10,
    color := "#ef4444" }

/-- The default "good" band. -/
def goodBand : RatingSettings :=
  { rating_name := "good", rating_text := "Хорошо", min_score := 35,
    color := "#3b82f6" }

/-- Claim C8 witness: with the default bands, score 15 resolves to the "poor"
band (minimum 10) and score 40 to the "good" band (minimum 35), and 10 ≤ 35. -/
theorem C8_band_monotone_witness : poorBand.min_score ≤ goodBand.min_score :=
  C8_band_monotone default_rating_thresholds 15 40 poorBand goodBand
    (by decide) (by decide) rfl rfl

/-- A help-request message used by the tracker scenarios. -/
def helpMsg1 : Message :=
  { id := 1, channel_id := 100, guild_id := 10, author_id := 5, created_at := 0,
    content := "нужен куратор", reference := none }

/-- If nothing tracks `mid`, the tracked count for `mid` is zero. -/
theorem countTracked_eq_zero_of_not_tracked (db : List ResponseTracking)
    (mid : Nat) (h : ¬ db.any (fun t => t.mention_message_id == mid) = true) :
    countTracked db mid = 0 := by
  unfold countTracked
  rw [List.length_eq_zero, List.filter_eq_nil_iff]
  intro a ha hpa
  exact h (List.any_eq_true.mpr ⟨a, ha, hpa⟩)

/-- One `create_response_tracking` step never pushes a tracked count above
`max 1` of its previous value: a duplicate attempt leaves the table untouched
and a fresh creation starts the count at one. -/
theorem create_countTracked_le (db : List ResponseTracking) (msg : Message)
    (sid mid : Nat) :
    countTracked (create_response_tracking db msg sid) mid
      ≤ max 1 (countTracked db mid) := by
  unfold create_response_tracking
  by_cases h : db.any (fun t => t.mention_message_id == msg.id) = true
  · rw [if_pos h]
    exact le_max_right 1 _
  · rw [if_neg h]
    unfold countTracked
    rw [List.filter_append, List.length_append]
    by_cases hm : mid = msg.id
    · subst hm
      have h0 : countTracked db msg.id = 0 :=
        countTracked_eq_zero_of_not_tracked db msg.id h
      unfold countTracked at h0
      rw [h0]
      simp
    · have hne : (msg.id == mid) = false := by
        simp only [beq_eq_false_iff_ne, ne_eq]
        exact fun he => hm he.symm
      simp only [List.filter_cons, hne]
      simp only [List.filter_nil, List.length_nil, Nat.add_zero]
      exact le_max_right 1 _

/-- Processing any help-event sequence preserves the invariant that each
message id is tracked by at most one record. -/
theorem processHelpEvents_countTracked (events : List (Message × Nat))
    (db : List ResponseTracking) (mid : Nat)
    (hinv : ∀ m, countTracked db m ≤ 1) :
    countTracked (processHelpEvents events db) mid ≤ 1 := by
  induction events generalizing db with
  | nil => exact hinv mid
  | cons e es ih =>
    refine ih (create_response_tracking db e.1 e.2) (fun m => ?_)
    exact le_trans (create_countTracked_le db e.1 e.2 m)
      (max_le le_rfl (hinv m))

/-- Claim C3: opening a tracking record is idempotent keyed by the
originating message id.  Any sequence of help-request events leaves at most
one tracking record per distinct message id, and a duplicate attempt on an
already-tracked id returns the table unchanged (a no-op, not an error). -/
theorem C3_tracking_idempotent :
    (∀ (events : List (Message × Nat)) (mid : Nat),
      countTracked (processHelpEvents events []) mid ≤ 1)
    ∧ ∀ (db : List ResponseTracking) (msg : Message) (sid : Nat),
        isTracked db msg.id = true → create_response_tracking db msg sid = db := by
  constructor
  · intro events mid
    refine processHelpEvents_countTracked events [] mid (fun m => ?_)
    simp [countTracked]
  · intro db msg sid h
    unfold isTracked at h
    unfold create_response_tracking
    rw [if_pos h]

/-- Claim C3 witness: delivering the same help request twice yields a single
record, and the second delivery is literally a no-op on the table. -/
theorem C3_tracking_idempotent_witness :
    countTracked (processHelpEvents [(helpMsg1, 1), (helpMsg1, 1)] []) 1 ≤ 1
    ∧ create_response_tracking (create_response_tracking [] helpMsg1 1) helpMsg1 1
        = create_response_tracking [] helpMsg1 1 :=
  ⟨C3_tracking_idempotent.1 [(helpMsg1, 1), (helpMsg1, 1)] 1,
   C3_tracking_idempotent.2 (create_response_tracking [] helpMsg1 1) helpMsg1 1
     (by decide)⟩

/-- The monitored server row for guild 10. -/
def server1 : DiscordServers := { id := 1, server_id := 10, is_active := true }

/-- A curator who is not the author of any fixture help request. -/
def curator1 : Curators := { id := 3, discord_id := 50, is_active := true }

/-- The record created for `helpMsg1` by `create_response_tracking`. -/
def trackedHelp1 : ResponseTracking :=
  { id := 0, server_id := 1, mention_message_id := 1, mention_timestamp := 0,
    mention_content := "нужен куратор", mention_author_id := 5 }

/-- A curator message arriving 700 s after `helpMsg1`, i.e. after the 600 s
escalation timeout has fired. -/
def lateMsg : Message :=
  { id := 2, channel_id := 100, guild_id := 10, author_id := 50,
    created_at := 700, content := "отвечаю", reference := none }

/-! ### Claim C1: escalation is not a terminal state in the code -/

/-- Claim C1 counterexample: a record created at `t = 0` and still unresolved
when the 600 s check fires produces a notification, but a matching curator
action at `t = 700` — after the escalation — still resolves the record (it is
marked resolved with latency 700, not recorded as ignored). -/
theorem C1_counterexample :
    (notification_check (create_response_tracking [] helpMsg1 1) 0).2 = true
    ∧ (update_response_tracking [server1]
        (notification_check (create_response_tracking [] helpMsg1 1) 0).1
        lateMsg curator1 "message" 700).map
          (fun t => (t.is_resolved, t.response_time_seconds))
      = [(true, some 700)] := by
  decide

/-- Claim C1 (amended): when the timeout check fires on a record that exists
and is still unresolved, one escalation notification is emitted, but the
tracking table is left completely unchanged — there is no terminal escalated
state — so any later curator action is processed exactly as if no escalation
had happened (in particular a late matching action still resolves the
record). -/
theorem C1_escalation_not_terminal (db : List ResponseTracking) (tid : Nat)
    (t : ResponseTracking)
    (hfind : db.find? (fun u => u.id == tid) = some t)
    (hunres : t.is_resolved = false) :
    (notification_check db tid).2 = true
    ∧ (notification_check db tid).1 = db
    ∧ ∀ (servers : List DiscordServers) (msg : Message) (cur : Curators)
        (rtype : String) (now : Int),
        update_response_tracking servers (notification_check db tid).1
            msg cur rtype now
          = update_response_tracking servers db msg cur rtype now := by
  unfold notification_check
  rw [hfind]
  refine ⟨?_, rfl, fun _ _ _ _ _ => rfl⟩
  show (!t.is_resolved) = true
  rw [hunres]
  rfl

/-- Claim C1 witness: the amended statement applied to the concrete
`helpMsg1` record at its fired check. -/
theorem C1_escalation_not_terminal_witness :
    (notification_check (create_response_tracking [] helpMsg1 1) 0).2 = true
    ∧ (notification_check (create_response_tracking [] helpMsg1 1) 0).1
        = create_response_tracking [] helpMsg1 1 :=
  ⟨(C1_escalation_not_terminal (create_response_tracking [] helpMsg1 1) 0
      trackedHelp1 (by decide) rfl).1,
   (C1_escalation_not_terminal (create_response_tracking [] helpMsg1 1) 0
      trackedHelp1 (by decide) rfl).2.1⟩

/-! ### Claim C2: no sign check on the computed latency -/

/-- An open record whose mention is at `t = 1000`. -/
def openAt1000 : ResponseTracking :=
  { id := 0, server_id := 1, mention_message_id := 1, mention_timestamp := 1000,
    mention_content := "помощь", mention_author_id := 5 }

/-- A curator action whose timestamp (500) precedes the mention (1000), e.g.
a reaction placed on an old message. -/
def earlyMsg : Message :=
  { id := 9, channel_id := 100, guild_id := 10, author_id := 50,
    created_at := 500, content := "", reference := none }

/-- Record `openAt1000` after being resolved by `earlyMsg`. -/
def resolvedNeg : ResponseTracking :=
  { id := 0, server_id := 1, mention_message_id := 1, mention_timestamp := 1000,
    mention_content := "помощь", mention_author_id := 5,
    curator_id := some 3, response_message_id := some 9,
    response_timestamp := some 500, response_type := some "reaction",
    response_time_seconds := some (-500), is_resolved := true }

/-- Claim C2 counterexample: a candidate action whose timestamp precedes the
record's mention timestamp is accepted as the resolving match, and the record
is stored resolved with a negative latency of −500 seconds. -/
theorem C2_counterexample :
    (update_response_tracking [server1] [openAt1000] earlyMsg curator1
        "reaction" 1000).map (fun t => (t.is_resolved, t.response_time_seconds))
      = [(true, some (-500))]
    ∧ ¬ (0 : Int) ≤ -500 := by
  decide

/-- Claim C2 (amended): resolution stores the raw signed difference
`response_ts − mention_ts` as the latency, with no rejection of candidates
whose timestamp precedes the mention; any record resolved by
`update_response_tracking` carries exactly that difference, which can be
negative. -/
theorem C2_latency_is_raw_difference (servers : List DiscordServers)
    (db : List ResponseTracking) (msg : Message) (cur : Curators)
    (rtype : String) (now : Int) (t : ResponseTracking)
    (hall : ∀ u ∈ db, u.is_resolved = false)
    (hmem : t ∈ update_response_tracking servers db msg cur rtype now)
    (hres : t.is_resolved = true) :
    t.response_time_seconds = some (msg.created_at - t.mention_timestamp) := by
  unfold update_response_tracking at hmem
  induction db with
  | nil => simp [updateFirst] at hmem
  | cons u us ih =>
    simp only [updateFirst] at hmem
    by_cases hp : trackingMatches servers msg.guild_id now u = true
    · rw [if_pos hp] at hmem
      rcases List.mem_cons.mp hmem with h | h
      · subst h
        rfl
      · have hu := hall t (List.mem_cons_of_mem u h)
        rw [hu] at hres
        exact absurd hres (by simp)
    · rw [if_neg hp] at hmem
      rcases List.mem_cons.mp hmem with h | h
      · have hu := hall t (h ▸ List.mem_cons_self u us)
        rw [hu] at hres
        exact absurd hres (by simp)
      · exact ih (fun v hv => hall v (List.mem_cons_of_mem u hv)) h

/-- Claim C2 witness: the amended statement applied to the concrete negative
scenario. -/
theorem C2_latency_is_raw_difference_witness :
    resolvedNeg.response_time_seconds
      = some (earlyMsg.created_at - resolvedNeg.mention_timestamp) :=
  C2_latency_is_raw_difference [server1] [openAt1000] earlyMsg curator1
    "reaction" 1000 resolvedNeg (by decide) (by decide) rfl

/-! ### Claim C4: no self-response exclusion -/

/-- A curator whose Discord id equals the author of `helpMsg1`. -/
def curatorAuthor : Curators := { id := 7, discord_id := 5, is_active := true }

/-- A later message by the same individual who posted `helpMsg1`. -/
def selfReply : Message :=
  { id := 4, channel_id := 100, guild_id := 10, author_id := 5,
    created_at := 120, content := "сам отвечу", reference := none }

/-- Claim C4 counterexample: the author of `helpMsg1` (Discord id 5), acting
as curator `curatorAuthor`, resolves their own help request — the resolved
record's resolving curator is the same individual as its mention author. -/
theorem C4_counterexample :
    (update_response_tracking [server1] (create_response_tracking [] helpMsg1 1)
        selfReply curatorAuthor "message" 120).map
      (fun t => (t.is_resolved, t.curator_id, t.mention_author_id))
      = [(true, some 7, 5)]
    ∧ curatorAuthor.discord_id = helpMsg1.author_id := by
  decide

/-- Claim C4 (amended): `update_response_tracking` performs no self-response
check: which record is resolved (and that it is resolved) is completely
independent of the acting curator, so an action authored by the help request's
own author resolves the request like any other curator action would. -/
theorem C4_no_self_response_exclusion (servers : List DiscordServers)
    (db : List ResponseTracking) (msg : Message) (rtype : String) (now : Int)
    (c1 c2 : Curators) :
    (update_response_tracking servers db msg c1 rtype now).map
        (fun t => (t.is_resolved, t.mention_message_id, t.mention_author_id))
      = (update_response_tracking servers db msg c2 rtype now).map
        (fun t => (t.is_resolved, t.mention_message_id, t.mention_author_id)) := by
  unfold update_response_tracking
  induction db with
  | nil => rfl
  | cons u us ih =>
    simp only [updateFirst]
    by_cases hp : trackingMatches servers msg.guild_id now u = true
    · rw [if_pos hp, if_pos hp]
      rfl
    · rw [if_neg hp, if_neg hp]
      simp only [List.map_cons]
      rw [ih]

/-! ### Claim C5: the active resolver ignores reply references -/

/-- A second help request, message id 2, in the same guild. -/
def helpMsg2 : Message :=
  { id := 2, channel_id := 100, guild_id := 10, author_id := 6,
    created_at := 50, content := "тоже нужна помощь", reference := none }

/-- Tracking table holding open records for messages 1 and 2. -/
def twoOpenDb : List ResponseTracking :=
  create_response_tracking (create_response_tracking [] helpMsg1 1) helpMsg2 1

/-- A curator reply that explicitly references message 2. -/
def replyToSecond : Message :=
  { id := 8, channel_id := 100, guild_id := 10, author_id := 50,
    created_at := 100, content := "ответ", reference := some 2 }

/-- The record for `helpMsg2` after `process_curator_response` fills in its
response columns from `replyToSecond`. -/
def processedReply2 : ResponseTracking :=
  { id := 1, server_id := 1, mention_message_id := 2, mention_timestamp := 50,
    mention_content := "тоже нужна помощь", mention_author_id := 6,
    curator_id := some 3, response_message_id := some 8,
    response_timestamp := some 100, response_type := some "reply",
    response_time_seconds := some 50 }

/-- Claim C5 counterexample: a reply explicitly referencing message 2 is
processed by the bot's resolver `update_response_tracking`, which ignores the
reference and resolves the record for message 1 instead, leaving the
referenced record open. -/
theorem C5_counterexample :
    (update_response_tracking [server1] twoOpenDb replyToSecond curator1
        "message" 100).map (fun t => (t.mention_message_id, t.is_resolved))
      = [(1, true), (2, false)]
    ∧ replyToSecond.reference = some 2 := by
  decide

/-- Claim C5 (amended): the resolver actually invoked by the bot,
`update_response_tracking`, is entirely independent of the action's reply
reference (it always uses the first-unresolved-in-guild fallback); only the
separate utility `process_curator_response` — not called by the active bot —
restricts a reply to the record whose mention message id equals the
referenced id, and it does nothing when no reference exists. -/
theorem C5_reference_handling (servers : List DiscordServers)
    (db : List ResponseTracking) (msg : Message) (cur : Curators)
    (rtype : String) (now : Int) (sid : Nat) :
    (∀ r1 r2 : Option Nat,
      update_response_tracking servers db { msg with reference := r1 }
          cur rtype now
        = update_response_tracking servers db { msg with reference := r2 }
          cur rtype now)
    ∧ (msg.reference = none → process_curator_response db msg cur sid = db)
    ∧ ∀ (ref : Nat) (t : ResponseTracking), msg.reference = some ref →
        t ∈ process_curator_response db msg cur sid →
        t ∈ db ∨ (t.mention_message_id = ref
          ∧ t.response_timestamp = some msg.created_at) := by
  refine ⟨fun r1 r2 => rfl, fun href => ?_, fun ref t href hmem => ?_⟩
  · unfold process_curator_response
    rw [href]
  · unfold process_curator_response at hmem
    rw [href] at hmem
    induction db with
    | nil => simp [updateFirst] at hmem
    | cons u us ih =>
      simp only [updateFirst] at hmem
      by_cases hp : (u.server_id == sid && u.mention_message_id == ref
          && u.response_timestamp == none) = true
      · rw [if_pos hp] at hmem
        rcases List.mem_cons.mp hmem with h | h
        · subst h
          refine Or.inr ⟨?_, rfl⟩
          simp only [Bool.and_eq_true] at hp
          exact eq_of_beq hp.1.2
        · exact Or.inl (List.mem_cons_of_mem u h)
      · rw [if_neg hp] at hmem
        rcases List.mem_cons.mp hmem with h | h
        · exact Or.inl (h ▸ List.mem_cons_self u us)
        · rcases ih h with hin | hprop
          · exact Or.inl (List.mem_cons_of_mem u hin)
          · exact Or.inr hprop

/-- Claim C5 witness: `process_curator_response` applied to the concrete
reply referencing message 2 — the changed record is exactly the referenced
one. -/
theorem C5_reference_handling_witness :
    processedReply2 ∈ twoOpenDb
      ∨ (processedReply2.mention_message_id = 2
          ∧ processedReply2.response_timestamp = some replyToSecond.created_at) :=
  (C5_reference_handling [server1] twoOpenDb replyToSecond curator1 "message"
      100 1).2.2 2 processedReply2 rfl (by decide)

/-! ### Claim C9: leaderboard ordering -/

/-- Descending-score order between leaderboard entries. -/
def scoreDescRel (a b : LeaderboardEntry) : Prop := b.score ≤ a.score

/-- Inserting into a list is a permutation of consing. -/
theorem insertDesc_perm (x : LeaderboardEntry) (l : List LeaderboardEntry) :
    (insertDesc x l).Perm (x :: l) := by
  induction l with
  | nil => exact List.Perm.refl _
  | cons y ys ih =>
    unfold insertDesc
    by_cases h : y.score ≤ x.score
    · rw [if_pos h]
    · rw [if_neg h]
      exact (ih.cons y).trans (List.Perm.swap x y ys)

/-- The stable sort is a permutation of its input. -/
theorem sortDesc_perm (l : List LeaderboardEntry) : (sortDesc l).Perm l := by
  induction l with
  | nil => exact List.Perm.refl _
  | cons x xs ih => exact (insertDesc_perm x (sortDesc xs)).trans (ih.cons x)

/-- Insertion preserves descending-score sortedness. -/
theorem insertDesc_sorted (x : LeaderboardEntry) (l : List LeaderboardEntry)
    (h : l.Pairwise scoreDescRel) : (insertDesc x l).Pairwise scoreDescRel := by
  induction l with
  | nil => simp [insertDesc]
  | cons y ys ih =>
    rw [List.pairwise_cons] at h
    obtain ⟨hy, hys⟩ := h
    unfold insertDesc
    by_cases hc : y.score ≤ x.score
    · rw [if_pos hc, List.pairwise_cons]
      refine ⟨fun z hz => ?_, List.pairwise_cons.mpr ⟨hy, hys⟩⟩
      rcases List.mem_cons.mp hz with rfl | hz2
      · exact hc
      · exact le_trans (hy z hz2) hc
    · rw [if_neg hc, List.pairwise_cons]
      refine ⟨fun z hz => ?_, ih hys⟩
      rcases List.mem_cons.mp ((insertDesc_perm x ys).mem_iff.mp hz) with rfl | hz2
      · exact le_of_lt (not_le.mp hc)
      · exact hy z hz2

/-- The stable sort is sorted descending by score. -/
theorem sortDesc_sorted (l : List LeaderboardEntry) :
    (sortDesc l).Pairwise scoreDescRel := by
  induction l with
  | nil => exact List.Pairwise.nil
  | cons x xs ih => exact insertDesc_sorted x (sortDesc xs) ih

/-- Stability of one insertion: among entries of any fixed score, the
inserted element lands first exactly when it carries that score, and the
relative order of the others is untouched. -/
theorem insertDesc_filter (x : LeaderboardEntry) (l : List LeaderboardEntry)
    (s : Int) :
    (insertDesc x l).filter (fun e => e.score == s)
      = (if x.score == s then [x] else [])
        ++ l.filter (fun e => e.score == s) := by
  induction l with
  | nil =>
    by_cases hx : (x.score == s) = true <;> simp [insertDesc, hx]
  | cons y ys ih =>
    unfold insertDesc
    by_cases hc : y.score ≤ x.score
    · rw [if_pos hc]
      by_cases hx : (x.score == s) = true <;>
        by_cases hy : (y.score == s) = true <;>
        simp [List.filter_cons, hx, hy]
    · rw [if_neg hc]
      by_cases hx : (x.score == s) = true <;>
        by_cases hy : (y.score == s) = true
      · exact absurd (le_of_eq ((eq_of_beq hy).trans (eq_of_beq hx).symm)) hc
      all_goals simp [List.filter_cons, ih, hx, hy]

/-- Stability of the sort: for every score value, the tied entries appear in
the output in exactly their input (storage enumeration) order. -/
theorem sortDesc_stable (l : List LeaderboardEntry) (s : Int) :
    (sortDesc l).filter (fun e => e.score == s)
      = l.filter (fun e => e.score == s) := by
  induction l with
  | nil => rfl
  | cons x xs ih =>
    show (insertDesc x (sortDesc xs)).filter _ = _
    rw [insertDesc_filter, ih, List.filter_cons]
    by_cases hx : (x.score == s) = true <;> simp [hx]

/-- Active curators with ids 2 and 1 and no recorded activity. -/
def curatorA : Curators := { id := 2, discord_id := 20, is_active := true }

/-- See `curatorA`. -/
def curatorB : Curators := { id := 1, discord_id := 10, is_active := true }

/-- Claim C9 counterexample: two active curators with tied scores.  The
leaderboard output follows the storage enumeration order of the curators
([2, 1] versus [1, 2] for the same set), so ties are not broken by curator id
and the output is not determined by the curator set and scores alone. -/
theorem C9_counterexample :
    (get_top_curators defaultRatingConfig [curatorA, curatorB] [] [] 10 30 0).map
      (fun e => e.curator.id) = [2, 1]
    ∧ (get_top_curators defaultRatingConfig [curatorB, curatorA] [] [] 10 30 0).map
      (fun e => e.curator.id) = [1, 2]
    ∧ (calculate_curator_score defaultRatingConfig [] [] 2 30 0).total_score
      = (calculate_curator_score defaultRatingConfig [] [] 1 30 0).total_score := by
  decide

/-- Claim C9 (amended): the leaderboard computes a snapshot for every active
curator, sorts descending by total score with a stable sort — so tied entries
retain the order in which the storage layer enumerated the curators, with no
curator-id tie-break — and returns the first `limit` entries. -/
theorem C9_leaderboard (config : GlobalRatingConfig) (curators : List Curators)
    (activities : List Activities) (db : List ResponseTracking)
    (limit days : Nat) (now : Int) :
    get_top_curators config curators activities db limit days now
      = (sortDesc (leaderboardEntries config curators activities db days now)).take
          limit
    ∧ (sortDesc (leaderboardEntries config curators activities db days now)).Perm
        (leaderboardEntries config curators activities db days now)
    ∧ (sortDesc (leaderboardEntries config curators activities db days now)).Pairwise
        scoreDescRel
    ∧ ∀ s : Int,
        (sortDesc (leaderboardEntries config curators activities db days now)).filter
            (fun e => e.score == s)
          = (leaderboardEntries config curators activities db days now).filter
            (fun e => e.score == s) :=
  ⟨rfl, sortDesc_perm _, sortDesc_sorted _, fun s => sortDesc_stable _ s⟩

end GovTrack
